import Mathlib

/-!
Verification development for the rings-node repository.

The shallow embedding below translates the relevant Rust sources:
* bns-core/src/message/payload.rs   (MessageRelay envelope: new, is_expired,
  verify, pack_msg, gzip codec, from_auto, Encoder/Decoder)
* src/jsonrpc/method.rs             (JSON-RPC Method names)
* rings-core/src/dht/subring.rs     (SubRing manager)
* rings-core/src/message/handlers/connection.rs (message handlers)

Collaborator code that the repository keeps outside the provided sources
(the ecc signature primitives, serde/flate2 wire codecs, the chord PeerRing
operations, the relay transition and the swarm transport map) is modelled
from the specification; every such definition carries a doc comment that
starts with `Modelled from the spec:`.
-/

namespace RingsNode

/-- A peer identifier: a fixed-width unsigned integer (treated as 160-bit). -/
abbrev Did := Nat

/-- Ring size: identifiers live modulo 2 to the 160. -/
def ringSize : Nat := 2 ^ 160

/-- Modelled from the spec: cyclic bias ordering, bias_a x = (x - a) mod 2^m.
The Did arithmetic lives in rings-core/src/dht (not under src/). -/
def bias (a x : Did) : Nat := (x + (ringSize - a % ringSize)) % ringSize

/-- Error kinds used by the embedded operations (bns-core err.rs and the
node error type, variants restricted to the ones the embedded code uses). -/
inductive Error where
  | serializeToString
  | gzipEncode
  | gzipDecode
  | deserialize
  | invalidVNodeType
  | invalidMethod
  | cannotInferNextHop
  | messageHandlerMissNextNode
  | peerRingUnexpectedAction
deriving DecidableEq, Repr

deriving instance DecidableEq for Except

/-- MessageRelayMethod from bns-core payload.rs: SEND, REPORT, None. -/
inductive MessageRelayMethod where
  | SEND
  | REPORT
  | NONE
deriving DecidableEq, Repr

/-- Modelled from the spec: a secret key of the opaque ecc module
(bns-core/src/ecc, not under src/), reduced to its numeric seed. -/
abbrev SecretKey := Nat

/-- Modelled from the spec: the address derived from a key is an opaque
injective function of the key; the model takes the identity map. -/
def addrOf (key : SecretKey) : Nat := key

/-- Modelled from the spec: an ECDSA signature, recorded as the signed
message together with the signing key (ecc module, not under src/). -/
structure Sig where
  msg : String
  signer : SecretKey
deriving DecidableEq, Repr

/-- Modelled from the spec: ecc sign (not under src/). -/
def ecSign (msg : String) (key : SecretKey) : Sig := ⟨msg, key⟩

/-- Modelled from the spec: ecc verify (not under src/): a signature is
valid for (msg, addr) exactly when it signs msg under a key whose
address is addr. -/
def ecVerify (msg : String) (addr : Nat) (sig : Sig) : Bool :=
  decide (sig.msg = msg ∧ addrOf sig.signer = addr)

/-- The signed relay envelope of bns-core payload.rs. -/
structure MessageRelay (T : Type) where
  data : T
  tx_id : String
  ttl_ms : Nat
  ts_ms : Nat
  to_path : List Did
  from_path : List Did
  addr : Nat
  sig : Sig
  method : MessageRelayMethod
deriving DecidableEq, Repr

/-- DEFAULT_TTL_MS from payload.rs. -/
def DEFAULT_TTL_MS : Nat := 60 * 1000

/-- pack_msg from payload.rs: the canonical form that is signed is
json(data) followed by a newline, ts_ms, a newline, and ttl_ms. The serde
serializer is passed in as `ser` (it may fail, as serde_json may). -/
def pack_msg {T : Type} (ser : T → Option String) (data : T) (ts_ms ttl_ms : Nat) :
    Except Error String :=
  match ser data with
  | none => .error .serializeToString
  | some s => .ok (s ++ "\n" ++ Nat.repr ts_ms ++ "\n" ++ Nat.repr ttl_ms)

/-- MessageRelay::new from payload.rs. The clock is passed in as `now`
(get_epoch_ms in the source). -/
def MessageRelay.new {T : Type} (ser : T → Option String) (data : T) (key : SecretKey)
    (ttl_ms : Option Nat) (to_path from_path : Option (List Did))
    (method : MessageRelayMethod) (now : Nat) : Except Error (MessageRelay T) :=
  let ts_ms := now
  let ttl := ttl_ms.getD DEFAULT_TTL_MS
  match pack_msg ser data ts_ms ttl with
  | .error e => .error e
  | .ok msg =>
      .ok { data := data
            tx_id := ""
            ttl_ms := ttl
            ts_ms := ts_ms
            to_path := to_path.getD []
            from_path := from_path.getD []
            addr := addrOf key
            sig := ecSign msg key
            method := method }

/-- MessageRelay::is_expired from payload.rs, verbatim: it returns
now < ts_ms + ttl_ms (the clock is passed in as `now`). -/
def MessageRelay.is_expired {T : Type} (m : MessageRelay T) (now : Nat) : Bool :=
  now < m.ts_ms + m.ttl_ms

/-- MessageRelay::verify from payload.rs: recompute the canonical form and
check the signature against the stored sender address. -/
def MessageRelay.verify {T : Type} (ser : T → Option String) (m : MessageRelay T) : Bool :=
  match pack_msg ser m.data m.ts_ms m.ttl_ms with
  | .ok msg => ecVerify msg m.addr m.sig
  | .error _ => false

/-- Modelled from the spec: the byte strings that the wire codec of
payload.rs manipulates, kept structural: the JSON form of an envelope, a
gzip wrapping of bytes, or unrelated raw bytes. serde_json and flate2 are
external collaborators; the decoder detects the gzip magic (spec 6.2). -/
inductive Bytes (T : Type) where
  | jsonOf (m : MessageRelay T)
  | gzipOf (b : Bytes T)
  | raw (bytes : List Nat)
deriving DecidableEq, Repr

/-- MessageRelay::to_json_vec from payload.rs (serde_json::to_vec). -/
def MessageRelay.to_json_vec {T : Type} (m : MessageRelay T) : Bytes T := .jsonOf m

/-- MessageRelay::gzip from payload.rs: gzip-compress the JSON form; the
compression level does not affect the decompressed content. -/
def MessageRelay.gzip {T : Type} (m : MessageRelay T) (_level : Nat) : Bytes T :=
  .gzipOf (.jsonOf m)

/-- MessageRelay::from_json from payload.rs (serde_json::from_slice). -/
def MessageRelay.from_json {T : Type} : Bytes T → Except Error (MessageRelay T)
  | .jsonOf m => .ok m
  | _ => .error .deserialize

/-- MessageRelay::from_gzipped from payload.rs: gunzip (failing on input
that is not gzip data) and then parse JSON. -/
def MessageRelay.from_gzipped {T : Type} : Bytes T → Except Error (MessageRelay T)
  | .gzipOf inner => MessageRelay.from_json inner
  | _ => .error .gzipDecode

/-- MessageRelay::from_auto from payload.rs: attempt gzip first, fall back
to plain JSON. -/
def MessageRelay.from_auto {T : Type} (b : Bytes T) : Except Error (MessageRelay T) :=
  match MessageRelay.from_gzipped b with
  | .ok m => .ok m
  | .error _ => MessageRelay.from_json b

/-- Modelled from the spec: Encoded, the compact text representation of a
byte string (bns-core encoder.rs, not under src/); its encoding of bytes
is invertible. -/
structure Encoded (T : Type) where
  bytes : Bytes T
deriving DecidableEq, Repr

/-- Modelled from the spec: Encoder for byte strings (encoder.rs). -/
def Bytes.encodeText {T : Type} (b : Bytes T) : Encoded T := ⟨b⟩

/-- Modelled from the spec: Decoder for Encoded (encoder.rs). -/
def Encoded.decodeBytes {T : Type} (e : Encoded T) : Except Error (Bytes T) := .ok e.bytes

/-- Encoder impl for MessageRelay from payload.rs: gzip at level 9, then
text-encode. -/
def MessageRelay.encode {T : Type} (m : MessageRelay T) : Except Error (Encoded T) :=
  .ok ((m.gzip 9).encodeText)

/-- Decoder impl for MessageRelay from payload.rs: text-decode then
from_auto. -/
def MessageRelay.from_encoded {T : Type} (e : Encoded T) : Except Error (MessageRelay T) :=
  match e.decodeBytes with
  | .ok v => MessageRelay.from_auto v
  | .error er => .error er

/-- The JSON-RPC Method enum of src/jsonrpc/method.rs, eighteen variants. -/
inductive Method where
  | ConnectPeerViaHttp
  | ConnectWithDid
  | ConnectWithSeed
  | ListPeers
  | CreateOffer
  | AnswerOffer
  | AcceptAnswer
  | SendTo
  | Disconnect
  | ListPendings
  | ClosePendingTransport
  | SendHttpRequest
  | SendSimpleText
  | PublishMessageToTopic
  | FetchMessagesOfTopic
  | RegisterService
  | LookupService
  | PollMessage
deriving DecidableEq, Repr

/-- Method::as_str from method.rs. -/
def Method.as_str : Method → String
  | .ConnectPeerViaHttp => "connectPeerViaHttp"
  | .ConnectWithDid => "connectWithDid"
  | .ConnectWithSeed => "connectWithSeed"
  | .ListPeers => "listPeers"
  | .CreateOffer => "createOffer"
  | .AnswerOffer => "answerOffer"
  | .SendTo => "sendTo"
  | .Disconnect => "disconnect"
  | .AcceptAnswer => "acceptAnswer"
  | .ListPendings => "listPendings"
  | .ClosePendingTransport => "closePendingTransport"
  | .SendHttpRequest => "sendHttpRequest"
  | .SendSimpleText => "sendSimpleText"
  | .PublishMessageToTopic => "publishMessageToTopic"
  | .FetchMessagesOfTopic => "fetchMessagesOfTopic"
  | .RegisterService => "registerService"
  | .LookupService => "lookupService"
  | .PollMessage => "pollMessage"

/-- TryFrom for Method from method.rs: match on the name, any
other string is an InvalidMethod error. -/
def Method.try_from (value : String) : Except Error Method :=
  if value = "connectPeerViaHttp" then .ok .ConnectPeerViaHttp
  else if value = "connectWithDid" then .ok .ConnectWithDid
  else if value = "connectWithSeed" then .ok .ConnectWithSeed
  else if value = "listPeers" then .ok .ListPeers
  else if value = "createOffer" then .ok .CreateOffer
  else if value = "answerOffer" then .ok .AnswerOffer
  else if value = "sendTo" then .ok .SendTo
  else if value = "disconnect" then .ok .Disconnect
  else if value = "acceptAnswer" then .ok .AcceptAnswer
  else if value = "listPendings" then .ok .ListPendings
  else if value = "closePendingTransport" then .ok .ClosePendingTransport
  else if value = "sendHttpRequest" then .ok .SendHttpRequest
  else if value = "sendSimpleText" then .ok .SendSimpleText
  else if value = "publishMessageToTopic" then .ok .PublishMessageToTopic
  else if value = "fetchMessagesOfTopic" then .ok .FetchMessagesOfTopic
  else if value = "registerService" then .ok .RegisterService
  else if value = "lookupService" then .ok .LookupService
  else if value = "pollMessage" then .ok .PollMessage
  else .error .invalidMethod

/-- FingerTable of rings-core dht (its internals are not under src/): the
anchor identifier and the Option entries. -/
structure FingerTable where
  selfId : Did
  entries : List (Option Did)
deriving DecidableEq, Repr

/-- FingerTable::set, overwrite entry i. -/
def FingerTable.set (ft : FingerTable) (i : Nat) (id : Did) : FingerTable :=
  { ft with entries := ft.entries.set i (some id) }

/-- Modelled from the spec: FingerTable::join (rings-core dht, not under
src/): record id in finger[0] if that slot is empty or id is closer (by
bias from self) than the current entry. -/
def FingerTable.join (ft : FingerTable) (id : Did) : FingerTable :=
  match ft.entries.head? with
  | some (some cur) =>
      if bias ft.selfId id < bias ft.selfId cur then ft.set 0 id else ft
  | _ => ft.set 0 id

/-- Modelled from the spec: closest preceding node (rings-core dht, not
under src/): the largest finger entry f with bias_self f < bias_self id,
or self when there is none. -/
def FingerTable.closestPreceding (ft : FingerTable) (id : Did) : Did :=
  let cands := (ft.entries.filterMap (fun e => e)).filter
    (fun f => bias ft.selfId f < bias ft.selfId id)
  cands.foldl (fun acc f => if bias ft.selfId acc < bias ft.selfId f then f else acc)
    ft.selfId

/-- The bounded successor list of rings-core dht (not under src/). -/
structure Successor where
  selfId : Did
  maxNum : Nat
  successors : List Did
deriving DecidableEq, Repr

/-- Modelled from the spec: insert preserving bias-sorted order. -/
def insertBiasSorted (selfId id : Did) : List Did → List Did
  | [] => [id]
  | x :: xs =>
      if bias selfId id < bias selfId x then id :: x :: xs
      else x :: insertBiasSorted selfId id xs

/-- Modelled from the spec: Successor::update (rings-core dht, not under
src/): never insert self, keep the list bias-sorted and deduplicated, and
cap the length at maxNum. -/
def Successor.update (s : Successor) (id : Did) : Successor :=
  if id = s.selfId ∨ id ∈ s.successors then s
  else { s with successors := (insertBiasSorted s.selfId id s.successors).take s.maxNum }

/-- Modelled from the spec: Successor::min, self when the list is empty. -/
def Successor.minDid (s : Successor) : Did := s.successors.headD s.selfId

/-- Modelled from the spec: Successor::max, self when the list is empty. -/
def Successor.maxDid (s : Successor) : Did := s.successors.getLastD s.selfId

/-- VNodeType of rings-core dht vnode.rs. -/
inductive VNodeType where
  | Data
  | SubRingKind
deriving DecidableEq, Repr

/-- Modelled from the spec: the Encoded data slots of a VirtualNode, kept
structural: either the serde_json text of a SubRing (subring.rs TryFrom)
or an unrelated plain payload. -/
inductive VNodeData where
  | subRingJson (name : String) (did : Did) (finger : FingerTable)
      (admin : Option Did) (creator : Did)
  | plain (s : String)
deriving DecidableEq, Repr

/-- VirtualNode of rings-core dht vnode.rs: address, data, kind. -/
structure VirtualNode where
  address : Did
  data : List VNodeData
  kind : VNodeType
deriving DecidableEq, Repr

/-- SubRing from rings-core/src/dht/subring.rs. -/
structure SubRing where
  name : String
  did : Did
  finger : FingerTable
  admin : Option Did
  creator : Did
deriving DecidableEq, Repr

/-- TryFrom SubRing for VirtualNode from subring.rs: serialize the ring
into the single data slot of a SubRing-kinded vnode addressed by its did. -/
def subringToVnode (sr : SubRing) : VirtualNode :=
  { address := sr.did
    data := [.subRingJson sr.name sr.did sr.finger sr.admin sr.creator]
    kind := .SubRingKind }

/-- TryFrom VirtualNode for SubRing from subring.rs: only SubRing-kinded
vnodes convert, by decoding and parsing the first data slot. -/
def vnodeToSubring (vn : VirtualNode) : Except Error SubRing :=
  match vn.kind with
  | .SubRingKind =>
      match vn.data.head? with
      | some (.subRingJson name did finger admin creator) =>
          .ok { name := name, did := did, finger := finger, admin := admin,
                creator := creator }
      | _ => .error .deserialize
  | _ => .error .invalidVNodeType

/-- Modelled from the spec: the MemStorage map of the ring (rings-core
storage, not under src/), as an association list with overwriting set. -/
abbrev Storage := List (Did × VirtualNode)

/-- Modelled from the spec: MemStorage::get. -/
def Storage.get (st : Storage) (id : Did) : Option VirtualNode :=
  (st.find? (fun kv => kv.1 == id)).map (fun kv => kv.2)

/-- Modelled from the spec: MemStorage::set, overwriting any prior value
under the same key. -/
def Storage.setKey (st : Storage) (id : Did) (v : VirtualNode) : Storage :=
  (id, v) :: st.filter (fun kv => kv.1 != id)

/-- The remote actions of rings-core dht (the variants the embedded code
uses). -/
inductive RemoteAction where
  | findSuccessor (id : Did)
  | findAndJoinSubRing (id : Did)
  | syncVNodeWithSuccessor (data : List VirtualNode)
deriving DecidableEq, Repr

/-- PeerRingAction of rings-core dht. -/
inductive PeerRingAction where
  | none
  | some (id : Did)
  | remoteAction (next : Did) (act : RemoteAction)
deriving DecidableEq, Repr

/-- PeerRing of rings-core dht chord.rs (not under src/): the fields the
embedded handlers use. -/
structure PeerRing where
  id : Did
  successor : Successor
  finger : FingerTable
  fix_finger_index : Nat
  storage : Storage
deriving DecidableEq, Repr

/-- Modelled from the spec: PeerRing::find_successor (chord.rs, not under
src/), following the fragment quoted in the connection.rs tests: when
bias(id) is at most bias(successor.max()) or the successor list is empty,
answer successor.min(); otherwise forward to the closest preceding node. -/
def PeerRing.find_successor (r : PeerRing) (id : Did) : PeerRingAction :=
  if bias r.id id ≤ bias r.id r.successor.maxDid ∨ r.successor.successors = [] then
    .some r.successor.minDid
  else
    .remoteAction (r.finger.closestPreceding id) (.findSuccessor id)

/-- Modelled from the spec: PeerRing::sync_with_successor (chord.rs, not
under src/): collect every stored vnode whose address is served better by
the new successor than by self, and hand them over for transfer. -/
def PeerRing.sync_with_successor (r : PeerRing) (succ : Did) : PeerRingAction :=
  let data := (r.storage.filter
    (fun kv => bias kv.2.address succ < bias kv.2.address r.id)).map (fun kv => kv.2)
  if data = [] then .none
  else .remoteAction succ (.syncVNodeWithSuccessor data)

/-- SubRingManager::get_subring from subring.rs: storage lookup followed
by the vnode-to-SubRing conversion. -/
def get_subring (st : Storage) (id : Did) : Option (Except Error SubRing) :=
  (Storage.get st id).map vnodeToSubring

/-- SubRingManager::store_subring from subring.rs: store the serialized
ring under its own did. -/
def store_subring (st : Storage) (sr : SubRing) : Storage :=
  st.setKey sr.did (subringToVnode sr)

/-- SubRingManager::get_subring_for_update from subring.rs: on a valid
stored SubRing apply the callback and store the result back, answering
true; otherwise answer false and leave the storage alone. -/
def get_subring_for_update (st : Storage) (id : Did)
    (callback : SubRing → SubRing) : Bool × Storage :=
  match get_subring st id with
  | some (.ok subring) => (true, store_subring st (callback subring))
  | _ => (false, st)

/-- The dispatch of SubRingManager::join_subring from subring.rs on the
result of find_successor: a local hit joins id into the stored ring's
finger table, a FindSuccessor remote action becomes a FindAndJoinSubRing
remote action, anything else is a PeerRingUnexpectedAction error. -/
def joinSubringDispatch (st : Storage) (id rid : Did) (a : PeerRingAction) :
    Except Error (PeerRingAction × Storage) :=
  match a with
  | .some _ =>
      let res := get_subring_for_update st rid
        (fun r => { r with finger := r.finger.join id })
      .ok (.none, res.2)
  | .remoteAction n (.findSuccessor _) =>
      .ok (.remoteAction n (.findAndJoinSubRing rid), st)
  | _ => .error .peerRingUnexpectedAction

/-- SubRingManager::join_subring from subring.rs: find_successor first,
then dispatch on its result. -/
def join_subring (r : PeerRing) (id rid : Did) :
    Except Error (PeerRingAction × Storage) :=
  joinSubringDispatch r.storage id rid (r.find_successor rid)

/-- RelayMethod of the rings-core relay protocol: live envelopes are SEND
or REPORT. -/
inductive RelayMethod where
  | SEND
  | REPORT
deriving DecidableEq, Repr

/-- The routing state of a rings-core MessageRelay envelope (protocol
module, not under src/): mode, forward path, reverse cursor, next hop and
destination. -/
structure Relay where
  method : RelayMethod
  path : List Did
  path_end_cursor : Nat
  next_hop : Option Did
  destination : Did
deriving DecidableEq, Repr

/-- Modelled from the spec: the SEND-mode path growth of the relay
transition: the current node is appended to the path unless it is already
the tail. -/
def pathAppendCurrent (p : List Did) (current : Did) : List Did :=
  if p.getLast? = some current then p else p ++ [current]

/-- Modelled from the spec: the relay transition (rings-core protocol, not
under src/). In SEND mode the path grows by the current node and the next
hop is taken as given, failing with CannotInferNextHop when absent and the
destination is elsewhere. In REPORT mode the cursor advances one reverse
hop along the unchanged path: next_hop becomes path[len - 2 - cursor], or
none once the walk has reached the originator. The REPORT behavior is
pinned by the path, cursor and next_hop assertions of the connection.rs
tests. -/
def Relay.relayStep (r : Relay) (current : Did) (next : Option Did) :
    Except Error Relay :=
  match r.method with
  | .SEND =>
      if next = Option.none ∧ r.destination ≠ current then .error .cannotInferNextHop
      else .ok { r with path := pathAppendCurrent r.path current, next_hop := next }
  | .REPORT =>
      if r.path_end_cursor + 1 + 2 ≤ r.path.length then
        .ok { r with path_end_cursor := r.path_end_cursor + 1,
                     next_hop := r.path.get?
                       (r.path.length - 2 - (r.path_end_cursor + 1)) }
      else
        .ok { r with path_end_cursor := r.path_end_cursor + 1,
                     next_hop := Option.none }

/-- Relay::sender: the first entry of the path is the original sender. -/
def Relay.sender (r : Relay) : Did := r.path.headD 0

/-- Modelled from the spec: send_report_message of the handler (rings-core
message module, not under src/) turns the envelope into REPORT mode on the
unchanged path and aims it at the first reverse hop. -/
def Relay.toReport (r : Relay) : Relay :=
  { r with method := .REPORT,
           next_hop := r.path.get? (r.path.length - 2 - r.path_end_cursor) }

/-- FindSuccessorReport message body (rings-core message types). -/
structure FindSuccessorReport where
  id : Did
  for_fix : Bool
deriving DecidableEq, Repr

/-- ConnectNodeSend message body (rings-core message types). -/
structure ConnectNodeSend where
  transport_uuid : String
  handshake_info : String
deriving DecidableEq, Repr

/-- The outbound message bodies the embedded handlers emit. -/
inductive OutMessage where
  | connectNodeReport (transport_uuid : String) (handshake_info : String)
  | alreadyConnected
  | syncVNodeWithSuccessor (data : List VirtualNode)
deriving DecidableEq, Repr

/-- The observable actions of a handler run: re-emitting the payload after
a relay transition, initiating a connect, direct sends, REPORT sends, and
the swarm transport mutations. -/
inductive Effect where
  | transpond (r : Relay)
  | connect (id : Did)
  | sendDirect (m : OutMessage) (dest : Did)
  | sendReport (m : OutMessage) (r : Relay)
  | newTransportRegisterRemote (handshake_info : String)
  | registerTransport (addr : Did)
deriving DecidableEq, Repr

/-- The per-node state a handler touches: the ring, the swarm address and
the swarm's registered transports (modelled as the list of peer addresses
that have one). -/
structure HandlerState where
  dht : PeerRing
  swarmAddr : Did
  transports : List Did
deriving DecidableEq, Repr

/-- HandleMsg ConnectNodeSend from connection.rs. When the local node is
not the destination the envelope is relayed toward an existing transport
of the destination, or else toward the node find_successor answers; when
the local node is the destination, a missing transport to the sender makes
it create one, register the remote handshake, answer (the generated answer
handshake is the `answer` argument) and reply ConnectNodeReport in REPORT
mode before registering the transport, while an existing transport makes
it reply AlreadyConnected. -/
def handleConnectNodeSend (st : HandlerState) (ctx : Relay) (msg : ConnectNodeSend)
    (answer : String) : Except Error (List Effect) :=
  if st.dht.id ≠ ctx.destination then
    if ctx.destination ∈ st.transports then
      match ctx.relayStep st.dht.id (some ctx.destination) with
      | .error e => .error e
      | .ok r2 => .ok [.transpond r2]
    else
      let next_node : Option Did :=
        match st.dht.find_successor ctx.destination with
        | .some node => some node
        | .remoteAction node _ => some node
        | _ => Option.none
      match next_node with
      | Option.none => .error .messageHandlerMissNextNode
      | some n =>
          match ctx.relayStep st.dht.id (some n) with
          | .error e => .error e
          | .ok r2 => .ok [.transpond r2]
  else
    match ctx.relayStep st.dht.id Option.none with
    | .error e => .error e
    | .ok r2 =>
        if r2.sender ∈ st.transports then
          .ok [.sendReport .alreadyConnected r2.toReport]
        else
          .ok [.newTransportRegisterRemote msg.handshake_info,
               .sendReport (.connectNodeReport msg.transport_uuid answer) r2.toReport,
               .registerTransport r2.sender]

/-- HandleMsg FindSuccessorReport from connection.rs. After the relay
transition, a present next hop re-emits the payload; otherwise, at the
originator, a missing transport to msg.id with msg.id distinct from the
swarm address initiates a connect and returns at once, else for_fix sets
the current fix-finger slot, else the successor list is updated and
sync_with_successor may emit a SyncVNodeWithSuccessor direct send. -/
def handleFindSuccessorReport (st : HandlerState) (ctx : Relay)
    (msg : FindSuccessorReport) : Except Error (HandlerState × List Effect) :=
  match ctx.relayStep st.dht.id Option.none with
  | .error e => .error e
  | .ok r2 =>
      if r2.next_hop.isSome then .ok (st, [.transpond r2])
      else if ¬ (msg.id ∈ st.transports) ∧ msg.id ≠ st.swarmAddr then
        .ok (st, [.connect msg.id])
      else if msg.for_fix then
        .ok ({ st with dht := { st.dht with
                 finger := st.dht.finger.set st.dht.fix_finger_index msg.id } }, [])
      else
        let dht2 := { st.dht with successor := st.dht.successor.update msg.id }
        match dht2.sync_with_successor msg.id with
        | .remoteAction next (.syncVNodeWithSuccessor data) =>
            .ok ({ st with dht := dht2 },
                 [.sendDirect (.syncVNodeWithSuccessor data) next])
        | _ => .ok ({ st with dht := dht2 }, [])

/-- A concrete serde serializer for Nat payloads: decimal text. -/
def natSer : Nat → Option String := fun n => some (Nat.repr n)

/-- A concrete envelope as MessageRelay::new stamps it at now = 1000 with
the default ttl, for evaluating the expiry predicate. -/
def c1Env : MessageRelay Nat :=
  { data := 7
    tx_id := ""
    ttl_ms := 60000
    ts_ms := 1000
    to_path := []
    from_path := []
    addr := 5
    sig := ecSign ("7" ++ "\n" ++ "1000" ++ "\n" ++ "60000") 5
    method := .SEND }

/-- C1: the claim says MessageRelay::is_expired returns true exactly when
now is at least ts_ms + ttl_ms. The code returns now < ts_ms + ttl_ms, the
liveness predicate: a freshly minted envelope (still live at its stamping
instant) is reported expired, and an envelope past its deadline is not. -/
theorem is_expired_inverted :
    MessageRelay.new natSer 7 5 Option.none Option.none Option.none .SEND 1000 =
      .ok c1Env ∧
    c1Env.is_expired 1000 = true ∧ ¬ (1000 ≥ c1Env.ts_ms + c1Env.ttl_ms) ∧
    c1Env.is_expired 61000 = false ∧ 61000 ≥ c1Env.ts_ms + c1Env.ttl_ms := by
  refine ⟨?_, by decide, by decide, by decide, by decide⟩
  rfl

/-- C2: MessageRelay::new succeeds on every serializable payload and the
envelope it returns verifies, with the sender address set to the key's
address. -/
theorem new_envelope_verifies {T : Type} (ser : T → Option String) (data : T)
    (key : SecretKey) (ttl_ms : Option Nat) (to_path from_path : Option (List Did))
    (method : MessageRelayMethod) (now : Nat) (s : String)
    (hs : ser data = some s) :
    ∃ env, MessageRelay.new ser data key ttl_ms to_path from_path method now = .ok env ∧
      env.verify ser = true ∧ env.addr = addrOf key := by
  refine ⟨{ data := data
            tx_id := ""
            ttl_ms := ttl_ms.getD DEFAULT_TTL_MS
            ts_ms := now
            to_path := to_path.getD []
            from_path := from_path.getD []
            addr := addrOf key
            sig := ecSign (s ++ "\n" ++ Nat.repr now ++ "\n" ++
              Nat.repr (ttl_ms.getD DEFAULT_TTL_MS)) key
            method := method }, ?_, ?_, rfl⟩
  · simp [MessageRelay.new, pack_msg, hs]
  · simp [MessageRelay.verify, pack_msg, hs, ecVerify, ecSign]

/-- Witness for C2 at a concrete payload, key and clock. -/
theorem new_envelope_verifies_witness :
    ∃ env, MessageRelay.new natSer 7 5 Option.none Option.none Option.none .SEND 0 =
        .ok env ∧ env.verify natSer = true ∧ env.addr = addrOf 5 :=
  new_envelope_verifies natSer 7 5 Option.none Option.none Option.none .SEND 0
    (Nat.repr 7) rfl

/-- C3: decoding the encoded form of any envelope recovers it exactly, and
decoding its plain un-gzipped JSON bytes also recovers it, because the
decoder attempts gzip first and falls back to plain JSON. -/
theorem codec_round_trip {T : Type} (env : MessageRelay T) :
    (∃ e, env.encode = .ok e ∧ MessageRelay.from_encoded e = .ok env) ∧
    MessageRelay.from_auto env.to_json_vec = .ok env :=
  ⟨⟨(env.gzip 9).encodeText, rfl, rfl⟩, rfl⟩

/-- Witness for C3 at a concrete envelope. -/
theorem codec_round_trip_witness :
    (∃ e, MessageRelay.encode c1Env = .ok e ∧
        MessageRelay.from_encoded e = .ok c1Env) ∧
    MessageRelay.from_auto (MessageRelay.to_json_vec c1Env) = .ok c1Env :=
  codec_round_trip c1Env

/-- C7: verification reads only data, ts_ms, ttl_ms, addr and sig: two
envelopes agreeing on those five fields verify identically, whatever their
to_path, from_path, method and tx_id. -/
theorem verify_ignores_routing_metadata {T : Type} (ser : T → Option String)
    (e1 e2 : MessageRelay T) (hdata : e1.data = e2.data) (hts : e1.ts_ms = e2.ts_ms)
    (httl : e1.ttl_ms = e2.ttl_ms) (haddr : e1.addr = e2.addr)
    (hsig : e1.sig = e2.sig) : e1.verify ser = e2.verify ser := by
  unfold MessageRelay.verify
  rw [hdata, hts, httl, haddr, hsig]

/-- Witness for C7: two envelopes differing in tx_id, paths and method
verify identically. -/
theorem verify_ignores_routing_metadata_witness :
    MessageRelay.verify natSer
      { data := 7, tx_id := "", ttl_ms := 1, ts_ms := 2, to_path := [],
        from_path := [], addr := 5, sig := ecSign "x" 5, method := .SEND } =
    MessageRelay.verify natSer
      { data := 7, tx_id := "abc", ttl_ms := 1, ts_ms := 2, to_path := [3],
        from_path := [4], addr := 5, sig := ecSign "x" 5, method := .REPORT } :=
  verify_ignores_routing_metadata natSer _ _ rfl rfl rfl rfl rfl

/-- C9: whatever the inputs, the envelope MessageRelay::new returns
carries the empty transaction identifier. -/
theorem new_tx_id_empty {T : Type} (ser : T → Option String) (data : T)
    (key : SecretKey) (ttl_ms : Option Nat) (to_path from_path : Option (List Did))
    (method : MessageRelayMethod) (now : Nat) (env : MessageRelay T)
    (h : MessageRelay.new ser data key ttl_ms to_path from_path method now = .ok env) :
    env.tx_id = "" := by
  simp only [MessageRelay.new] at h
  split at h
  · exact absurd h (by simp)
  · rw [Except.ok.injEq] at h
    rw [← h]

/-- Witness for C9 at a concrete construction. -/
theorem new_tx_id_empty_witness : c1Env.tx_id = "" :=
  new_tx_id_empty natSer 7 5 Option.none Option.none Option.none .SEND 1000 c1Env rfl

/-- C10: the JSON-RPC method-name mapping round-trips: for every variant
m, try_from on m's name succeeds with a variant of the same name, and
try_from answers the InvalidMethod error on every string that is not one
of the eighteen supported names. -/
theorem method_name_round_trip :
    (∀ m : Method, ∃ m2, Method.try_from m.as_str = .ok m2 ∧ m2.as_str = m.as_str) ∧
    (∀ s : String, (∀ m : Method, s ≠ m.as_str) →
        Method.try_from s = .error .invalidMethod) := by
  constructor
  · intro m
    cases m <;> exact ⟨_, rfl, rfl⟩
  · intro s h
    have h01 : s ≠ "connectPeerViaHttp" := h .ConnectPeerViaHttp
    have h02 : s ≠ "connectWithDid" := h .ConnectWithDid
    have h03 : s ≠ "connectWithSeed" := h .ConnectWithSeed
    have h04 : s ≠ "listPeers" := h .ListPeers
    have h05 : s ≠ "createOffer" := h .CreateOffer
    have h06 : s ≠ "answerOffer" := h .AnswerOffer
    have h07 : s ≠ "sendTo" := h .SendTo
    have h08 : s ≠ "disconnect" := h .Disconnect
    have h09 : s ≠ "acceptAnswer" := h .AcceptAnswer
    have h10 : s ≠ "listPendings" := h .ListPendings
    have h11 : s ≠ "closePendingTransport" := h .ClosePendingTransport
    have h12 : s ≠ "sendHttpRequest" := h .SendHttpRequest
    have h13 : s ≠ "sendSimpleText" := h .SendSimpleText
    have h14 : s ≠ "publishMessageToTopic" := h .PublishMessageToTopic
    have h15 : s ≠ "fetchMessagesOfTopic" := h .FetchMessagesOfTopic
    have h16 : s ≠ "registerService" := h .RegisterService
    have h17 : s ≠ "lookupService" := h .LookupService
    have h18 : s ≠ "pollMessage" := h .PollMessage
    unfold Method.try_from
    rw [if_neg h01, if_neg h02, if_neg h03, if_neg h04, if_neg h05, if_neg h06,
      if_neg h07, if_neg h08, if_neg h09, if_neg h10, if_neg h11, if_neg h12,
      if_neg h13, if_neg h14, if_neg h15, if_neg h16, if_neg h17, if_neg h18]

/-- Witness for C10: the round-trip at one concrete variant and the error
at one concrete unsupported name. -/
theorem method_name_round_trip_witness :
    (∃ m2, Method.try_from (Method.as_str .SendTo) = .ok m2 ∧
        m2.as_str = Method.as_str .SendTo) ∧
    Method.try_from "unsupportedName" = .error .invalidMethod :=
  ⟨method_name_round_trip.1 .SendTo,
   method_name_round_trip.2 "unsupportedName" (by intro m; cases m <;> decide)⟩

/-- On a valid stored SubRing, get_subring_for_update applies the callback
and stores the result back under the result's did. -/
lemma get_subring_for_update_hit (st : Storage) (id : Did)
    (cb : SubRing → SubRing) (sr : SubRing)
    (hg : get_subring st id = some (.ok sr)) :
    get_subring_for_update st id cb = (true, store_subring st (cb sr)) := by
  unfold get_subring_for_update
  rw [hg]

/-- Reading back a freshly stored SubRing at its did recovers it. -/
lemma get_subring_after_store (st : Storage) (sr : SubRing) :
    get_subring (store_subring st sr) sr.did = some (.ok sr) := by
  simp [get_subring, Storage.get, store_subring, Storage.setKey, List.find?,
    subringToVnode, vnodeToSubring]

/-- C8: when the storage holds no valid SubRing under id,
get_subring_for_update answers false, invokes no callback (its result is
independent of the callback) and leaves the storage unchanged; when a
valid SubRing is present, the only storage change is re-storing the
callback's result under that SubRing's did. -/
theorem get_subring_for_update_effects (st : Storage) (id : Did) :
    (∀ (cb1 cb2 : SubRing → SubRing),
        (∀ sr, get_subring st id ≠ some (.ok sr)) →
        get_subring_for_update st id cb1 = (false, st) ∧
        get_subring_for_update st id cb1 = get_subring_for_update st id cb2) ∧
    (∀ (cb : SubRing → SubRing) (sr : SubRing),
        get_subring st id = some (.ok sr) →
        get_subring_for_update st id cb =
          (true, Storage.setKey st (cb sr).did (subringToVnode (cb sr)))) := by
  constructor
  · intro cb1 cb2 hmiss
    cases hg : get_subring st id with
    | none => constructor <;> simp [get_subring_for_update, hg]
    | some r =>
        cases r with
        | ok sr => exact absurd hg (hmiss sr)
        | error e => constructor <;> simp [get_subring_for_update, hg]
  · intro cb sr hg
    exact get_subring_for_update_hit st id cb sr hg

/-- A concrete SubRing stored under its did 5. -/
def c8SubRing : SubRing :=
  { name := "a", did := 5, finger := ⟨5, [Option.none]⟩, admin := Option.none,
    creator := 9 }

/-- Witness for C8: the miss behavior on the empty storage and the hit
behavior on a one-entry storage. -/
theorem get_subring_for_update_effects_witness :
    (get_subring_for_update [] 0 (fun r => r) = (false, []) ∧
     get_subring_for_update [] 0 (fun r => r) =
       get_subring_for_update [] 0 (fun r => { r with admin := some 1 })) ∧
    get_subring_for_update [(5, subringToVnode c8SubRing)] 5 (fun r => r) =
      (true, Storage.setKey [(5, subringToVnode c8SubRing)] c8SubRing.did
        (subringToVnode c8SubRing)) :=
  ⟨(get_subring_for_update_effects [] 0).1 _ _
      (by intro sr; simp [get_subring, Storage.get]),
   (get_subring_for_update_effects [(5, subringToVnode c8SubRing)] 5).2 _ c8SubRing
      (by decide)⟩

/-- C6: join_subring dispatches on find_successor of the subring id: on a
local hit the stored SubRing (when a valid one is present under rid) has
id joined into its finger table and is re-stored, and join_subring answers
the None action; on a FindSuccessor remote action it answers a
FindAndJoinSubRing remote action at the same next node with the storage
untouched; any other find_successor result is an error. -/
theorem join_subring_cases (r : PeerRing) (id rid : Did) :
    (∀ s, r.find_successor rid = .some s →
        (∃ st2, join_subring r id rid = .ok (.none, st2)) ∧
        (∀ sr, get_subring r.storage rid = some (.ok sr) →
            join_subring r id rid =
              .ok (.none, store_subring r.storage
                { sr with finger := sr.finger.join id }) ∧
            get_subring
              (store_subring r.storage { sr with finger := sr.finger.join id })
              sr.did = some (.ok { sr with finger := sr.finger.join id }))) ∧
    (∀ n m, r.find_successor rid = .remoteAction n (.findSuccessor m) →
        join_subring r id rid =
          .ok (.remoteAction n (.findAndJoinSubRing rid), r.storage)) ∧
    (∀ a, (∀ s, a ≠ .some s) →
        (∀ n m, a ≠ .remoteAction n (.findSuccessor m)) →
        joinSubringDispatch r.storage id rid a = .error .peerRingUnexpectedAction) := by
  refine ⟨?_, ?_, ?_⟩
  · intro s hfs
    constructor
    · refine ⟨(get_subring_for_update r.storage rid
        (fun sr => { sr with finger := sr.finger.join id })).2, ?_⟩
      unfold join_subring
      rw [hfs]
      rfl
    · intro sr hg
      have hupd := get_subring_for_update_hit r.storage rid
        (fun sr => { sr with finger := sr.finger.join id }) sr hg
      constructor
      · unfold join_subring
        rw [hfs]
        unfold joinSubringDispatch
        rw [hupd]
      · have hdid : ({ sr with finger := sr.finger.join id } : SubRing).did = sr.did := rfl
        rw [← hdid]
        exact get_subring_after_store r.storage { sr with finger := sr.finger.join id }
  · intro n m hfs
    unfold join_subring
    rw [hfs]
    rfl
  · intro a h1 h2
    cases a with
    | none => rfl
    | some s => exact absurd rfl (h1 s)
    | remoteAction n act =>
        cases act with
        | findSuccessor m => exact absurd rfl (h2 n m)
        | findAndJoinSubRing x => rfl
        | syncVNodeWithSuccessor d => rfl

/-- A SubRing to store under 15 in a concrete ring. -/
def c6SubRing : SubRing :=
  { name := "s", did := 15, finger := ⟨15, [Option.none]⟩, admin := Option.none,
    creator := 10 }

/-- A concrete ring whose find_successor answers a local hit for the
subring id 15, with a SubRing stored there. -/
def c6RingLocal : PeerRing :=
  { id := 10
    successor := ⟨10, 3, [20]⟩
    finger := ⟨10, [Option.none]⟩
    fix_finger_index := 0
    storage := [(15, subringToVnode c6SubRing)] }

/-- A concrete ring whose find_successor answers a remote action for the
subring id 25. -/
def c6RingRemote : PeerRing :=
  { id := 10
    successor := ⟨10, 3, [20]⟩
    finger := ⟨10, [Option.none]⟩
    fix_finger_index := 0
    storage := [] }

/-- Witness for C6: the local-hit case, the remote case and the
unexpected-action case at concrete inputs. -/
theorem join_subring_cases_witness :
    ((∃ st2, join_subring c6RingLocal 7 15 = .ok (.none, st2)) ∧
     (join_subring c6RingLocal 7 15 =
        .ok (.none, store_subring c6RingLocal.storage
          { c6SubRing with finger := c6SubRing.finger.join 7 }) ∧
      get_subring
        (store_subring c6RingLocal.storage
          { c6SubRing with finger := c6SubRing.finger.join 7 })
        c6SubRing.did =
        some (.ok { c6SubRing with finger := c6SubRing.finger.join 7 }))) ∧
    join_subring c6RingRemote 7 25 =
      .ok (.remoteAction 10 (.findAndJoinSubRing 25), c6RingRemote.storage) ∧
    joinSubringDispatch c6RingLocal.storage 7 15 .none =
      .error .peerRingUnexpectedAction :=
  ⟨⟨((join_subring_cases c6RingLocal 7 15).1 20 (by decide)).1,
    ((join_subring_cases c6RingLocal 7 15).1 20 (by decide)).2 c6SubRing (by decide)⟩,
   (join_subring_cases c6RingRemote 7 25).2.1 10 25 (by decide),
   (join_subring_cases c6RingLocal 7 15).2.2 .none
     (fun s h => PeerRingAction.noConfusion h)
     (fun n m h => PeerRingAction.noConfusion h)⟩

/-- A node state at the path originator: self is 1, a transport to 3 is
registered, the fix-finger slot is 0 and the finger table is empty. -/
def c4St : HandlerState :=
  { dht := { id := 1
             successor := ⟨1, 3, [3]⟩
             finger := ⟨1, [Option.none, Option.none, Option.none]⟩
             fix_finger_index := 0
             storage := [] }
    swarmAddr := 1
    transports := [3] }

/-- A REPORT envelope whose reverse walk ends at node 1 (the originator). -/
def c4CtxB : Relay :=
  { method := .REPORT, path := [1, 3], path_end_cursor := 0,
    next_hop := some 1, destination := 1 }

/-- C4, counterexample: a FindSuccessorReport with id 5 and for_fix true
handled at the originator, where no transport to 5 exists and 5 is not
self: the handler initiates connect(5) and returns at once, so the
fix-finger slot is NOT set to 5 as the claim demands. -/
theorem find_successor_report_connect_skips_update :
    handleFindSuccessorReport c4St c4CtxB ⟨5, true⟩ = .ok (c4St, [.connect 5]) ∧
    c4St.dht.finger.entries.get? c4St.dht.fix_finger_index ≠ some (some 5) := by
  decide

/-- C4, amended: after the relay transition, a present next hop re-emits
the envelope; at the originator, when no transport to msg.id exists and
msg.id is not self, only connect(msg.id) is initiated (the handler returns
early, with no ring update); otherwise, for_fix sets finger entry
fix_finger_index to msg.id, and with for_fix false the successor list is
updated with msg.id and sync_with_successor runs, emitting a direct
SyncVNodeWithSuccessor exactly when it answers a remote action. -/
theorem handle_find_successor_report_cases (st : HandlerState) (ctx : Relay)
    (msg : FindSuccessorReport) (r2 : Relay)
    (hstep : ctx.relayStep st.dht.id Option.none = .ok r2) :
    (∀ n, r2.next_hop = some n →
        handleFindSuccessorReport st ctx msg = .ok (st, [.transpond r2])) ∧
    (r2.next_hop = Option.none → ¬ (msg.id ∈ st.transports) →
        msg.id ≠ st.swarmAddr →
        handleFindSuccessorReport st ctx msg = .ok (st, [.connect msg.id])) ∧
    (r2.next_hop = Option.none → (msg.id ∈ st.transports ∨ msg.id = st.swarmAddr) →
        msg.for_fix = true →
        handleFindSuccessorReport st ctx msg =
          .ok ({ st with dht := { st.dht with
                   finger := st.dht.finger.set st.dht.fix_finger_index msg.id } }, [])) ∧
    (r2.next_hop = Option.none → (msg.id ∈ st.transports ∨ msg.id = st.swarmAddr) →
        msg.for_fix = false →
        (PeerRing.sync_with_successor
            { st.dht with successor := st.dht.successor.update msg.id } msg.id =
              .none →
          handleFindSuccessorReport st ctx msg =
            .ok ({ st with dht :=
              { st.dht with successor := st.dht.successor.update msg.id } }, [])) ∧
        (∀ next data,
          PeerRing.sync_with_successor
              { st.dht with successor := st.dht.successor.update msg.id } msg.id =
            .remoteAction next (.syncVNodeWithSuccessor data) →
          handleFindSuccessorReport st ctx msg =
            .ok ({ st with dht :=
              { st.dht with successor := st.dht.successor.update msg.id } },
              [.sendDirect (.syncVNodeWithSuccessor data) next]))) := by
  refine ⟨?_, ?_, ?_, ?_⟩
  · intro n hn
    unfold handleFindSuccessorReport
    rw [hstep]
    simp [hn]
  · intro hn h1 h2
    unfold handleFindSuccessorReport
    rw [hstep]
    simp [hn, h1, h2]
  · intro hn hor hff
    unfold handleFindSuccessorReport
    rw [hstep]
    rcases hor with h | h
    · simp [hn, h, hff]
    · simp [hn, h, hff]
  · intro hn hor hff
    constructor
    · intro hsync
      unfold handleFindSuccessorReport
      rw [hstep]
      rcases hor with h | h
      · simp [hn, h, hff, hsync]
      · rw [h] at hsync
        simp [hn, h, hff, hsync]
    · intro next data hsync
      unfold handleFindSuccessorReport
      rw [hstep]
      rcases hor with h | h
      · simp [hn, h, hff, hsync]
      · rw [h] at hsync
        simp [hn, h, hff, hsync]

/-- A REPORT envelope one hop away from its originator 7. -/
def c4CtxA : Relay :=
  { method := .REPORT, path := [7, 1, 3], path_end_cursor := 0,
    next_hop := some 1, destination := 7 }

/-- The relay state after node 1 applies the reverse transition to the
envelope one hop from its originator. -/
def c4R2A : Relay :=
  { method := .REPORT, path := [7, 1, 3], path_end_cursor := 1,
    next_hop := some 7, destination := 7 }

/-- The relay state after node 1 applies the reverse transition to the
envelope that ends at node 1. -/
def c4R2B : Relay :=
  { method := .REPORT, path := [1, 3], path_end_cursor := 1,
    next_hop := Option.none, destination := 1 }

/-- Witness for C4 (amended): the four branches at concrete inputs: relay
onward, connect-and-return, fix-finger update, successor update with an
empty sync. -/
theorem handle_find_successor_report_cases_witness :
    handleFindSuccessorReport c4St c4CtxA ⟨5, true⟩ = .ok (c4St, [.transpond c4R2A]) ∧
    handleFindSuccessorReport c4St c4CtxB ⟨5, false⟩ = .ok (c4St, [.connect 5]) ∧
    handleFindSuccessorReport c4St c4CtxB ⟨3, true⟩ =
      .ok ({ c4St with dht := { c4St.dht with
               finger := c4St.dht.finger.set c4St.dht.fix_finger_index 3 } }, []) ∧
    handleFindSuccessorReport c4St c4CtxB ⟨3, false⟩ =
      .ok ({ c4St with dht :=
        { c4St.dht with successor := c4St.dht.successor.update 3 } }, []) :=
  ⟨(handle_find_successor_report_cases c4St c4CtxA ⟨5, true⟩ c4R2A (by decide)).1
      7 (by decide),
   (handle_find_successor_report_cases c4St c4CtxB ⟨5, false⟩ c4R2B (by decide)).2.1
      (by decide) (by decide) (by decide),
   (handle_find_successor_report_cases c4St c4CtxB ⟨3, true⟩ c4R2B (by decide)).2.2.1
      (by decide) (by decide) (by decide),
   ((handle_find_successor_report_cases c4St c4CtxB ⟨3, false⟩ c4R2B (by decide)).2.2.2
      (by decide) (by decide) (by decide)).1 (by decide)⟩

/-- The relay transition in SEND mode, when the next hop is inferable,
appends the current node to the path and adopts the given next hop. -/
lemma relayStep_send_eq (ctx : Relay) (cur : Did) (next : Option Did)
    (hm : ctx.method = .SEND)
    (hok : ¬ (next = Option.none ∧ ctx.destination ≠ cur)) :
    ctx.relayStep cur next =
      .ok { ctx with path := pathAppendCurrent ctx.path cur, next_hop := next } := by
  rcases ctx with ⟨mth, path, cursor, nh, dest⟩
  obtain rfl : mth = RelayMethod.SEND := hm
  unfold Relay.relayStep
  rw [if_neg hok]

/-- C5: a ConnectNodeSend not addressed to self is relayed toward an
existing transport of the destination when one is registered, and
otherwise toward the node find_successor answers; addressed to self, a
missing transport to the envelope's original sender makes the handler
create a transport, register the remote handshake, generate an answer and
send a ConnectNodeReport carrying the original transport_uuid in REPORT
mode before registering the transport, while an existing transport makes
it answer AlreadyConnected in REPORT mode. -/
theorem handle_connect_node_send_cases (st : HandlerState) (ctx : Relay)
    (msg : ConnectNodeSend) (answer : String) (hm : ctx.method = .SEND) :
    (st.dht.id ≠ ctx.destination → ctx.destination ∈ st.transports →
        ∃ r2, handleConnectNodeSend st ctx msg answer = .ok [.transpond r2] ∧
          r2.next_hop = some ctx.destination) ∧
    (∀ n, st.dht.id ≠ ctx.destination → ¬ (ctx.destination ∈ st.transports) →
        (st.dht.find_successor ctx.destination = .some n ∨
         ∃ act, st.dht.find_successor ctx.destination = .remoteAction n act) →
        ∃ r2, handleConnectNodeSend st ctx msg answer = .ok [.transpond r2] ∧
          r2.next_hop = some n) ∧
    (∀ r2, st.dht.id = ctx.destination →
        ctx.relayStep st.dht.id Option.none = .ok r2 →
        (ctx.path ≠ [] → r2.sender = ctx.path.headD 0) ∧
        (¬ (r2.sender ∈ st.transports) →
            handleConnectNodeSend st ctx msg answer =
              .ok [.newTransportRegisterRemote msg.handshake_info,
                   .sendReport (.connectNodeReport msg.transport_uuid answer)
                     r2.toReport,
                   .registerTransport r2.sender] ∧
            r2.toReport.method = .REPORT) ∧
        (r2.sender ∈ st.transports →
            handleConnectNodeSend st ctx msg answer =
              .ok [.sendReport .alreadyConnected r2.toReport] ∧
            r2.toReport.method = .REPORT)) := by
  refine ⟨?_, ?_, ?_⟩
  · intro hne hmem
    unfold handleConnectNodeSend
    unfold Relay.relayStep
    rw [hm]
    simp [hne, hmem]
  · intro n hne hnmem hfs
    unfold handleConnectNodeSend
    unfold Relay.relayStep
    rw [hm]
    rcases hfs with hfs | ⟨act, hfs⟩
    · simp [hne, hnmem, hfs]
    · simp [hne, hnmem, hfs]
  · intro r2 heq hstep
    have hne2 : ¬ (st.dht.id ≠ ctx.destination) := fun h => h heq
    have hA := relayStep_send_eq ctx st.dht.id Option.none hm
      (fun hc => hc.2 heq.symm)
    have hr2 : r2 =
        { ctx with path := pathAppendCurrent ctx.path st.dht.id,
                   next_hop := Option.none } := by
      rw [hA] at hstep
      exact (Except.ok.inj hstep).symm
    refine ⟨?_, ?_, ?_⟩
    · intro hp
      rw [hr2]
      cases hpath : ctx.path with
      | nil => exact absurd hpath hp
      | cons a t =>
          by_cases hg : (a :: t).getLast? = some st.dht.id <;>
            simp [Relay.sender, pathAppendCurrent, hpath, hg]
    · intro hnmem
      refine ⟨?_, rfl⟩
      unfold handleConnectNodeSend
      simp [hne2, hstep, hnmem]
    · intro hmem
      refine ⟨?_, rfl⟩
      unfold handleConnectNodeSend
      simp [hne2, hstep, hmem]

/-- A node state for the ConnectNodeSend scenarios: self is 1, transports
to 2 and 3, one finger entry 3 and successor list [3]. -/
def c5St : HandlerState :=
  { dht := { id := 1
             successor := ⟨1, 3, [3]⟩
             finger := ⟨1, [some 3]⟩
             fix_finger_index := 0
             storage := [] }
    swarmAddr := 1
    transports := [2, 3] }

/-- A SEND envelope for destination 2, which has a registered transport. -/
def c5CtxA : Relay :=
  { method := .SEND, path := [9], path_end_cursor := 0,
    next_hop := some 1, destination := 2 }

/-- A SEND envelope for destination 5, which has no transport, so routing
asks find_successor. -/
def c5CtxB : Relay :=
  { method := .SEND, path := [9], path_end_cursor := 0,
    next_hop := some 1, destination := 5 }

/-- A SEND envelope addressed to self from sender 9, which has no
registered transport. -/
def c5CtxC : Relay :=
  { method := .SEND, path := [9], path_end_cursor := 0,
    next_hop := some 1, destination := 1 }

/-- The relay state after node 1 applies the SEND transition to the
envelope from sender 9. -/
def c5R2C : Relay :=
  { method := .SEND, path := [9, 1], path_end_cursor := 0,
    next_hop := Option.none, destination := 1 }

/-- A SEND envelope addressed to self from sender 2, which has a
registered transport. -/
def c5CtxD : Relay :=
  { method := .SEND, path := [2], path_end_cursor := 0,
    next_hop := some 1, destination := 1 }

/-- The relay state after node 1 applies the SEND transition to the
envelope from sender 2. -/
def c5R2D : Relay :=
  { method := .SEND, path := [2, 1], path_end_cursor := 0,
    next_hop := Option.none, destination := 1 }

/-- Witness for C5: the four branches at concrete inputs: relay toward a
registered transport, relay toward the find_successor node, the
ConnectNodeReport answer to a new sender, and AlreadyConnected to a known
sender. -/
theorem handle_connect_node_send_cases_witness :
    (∃ r2, handleConnectNodeSend c5St c5CtxA ⟨"u", "h"⟩ "a" = .ok [.transpond r2] ∧
        r2.next_hop = some c5CtxA.destination) ∧
    (∃ r2, handleConnectNodeSend c5St c5CtxB ⟨"u", "h"⟩ "a" = .ok [.transpond r2] ∧
        r2.next_hop = some 3) ∧
    ((c5CtxC.path ≠ [] → c5R2C.sender = c5CtxC.path.headD 0) ∧
     (¬ (c5R2C.sender ∈ c5St.transports) →
         handleConnectNodeSend c5St c5CtxC ⟨"u", "h"⟩ "a" =
           .ok [.newTransportRegisterRemote "h",
                .sendReport (.connectNodeReport "u" "a") c5R2C.toReport,
                .registerTransport c5R2C.sender] ∧
         c5R2C.toReport.method = .REPORT) ∧
     (c5R2C.sender ∈ c5St.transports →
         handleConnectNodeSend c5St c5CtxC ⟨"u", "h"⟩ "a" =
           .ok [.sendReport .alreadyConnected c5R2C.toReport] ∧
         c5R2C.toReport.method = .REPORT)) ∧
    ((c5CtxD.path ≠ [] → c5R2D.sender = c5CtxD.path.headD 0) ∧
     (¬ (c5R2D.sender ∈ c5St.transports) →
         handleConnectNodeSend c5St c5CtxD ⟨"u", "h"⟩ "a" =
           .ok [.newTransportRegisterRemote "h",
                .sendReport (.connectNodeReport "u" "a") c5R2D.toReport,
                .registerTransport c5R2D.sender] ∧
         c5R2D.toReport.method = .REPORT) ∧
     (c5R2D.sender ∈ c5St.transports →
         handleConnectNodeSend c5St c5CtxD ⟨"u", "h"⟩ "a" =
           .ok [.sendReport .alreadyConnected c5R2D.toReport] ∧
         c5R2D.toReport.method = .REPORT)) :=
  ⟨(handle_connect_node_send_cases c5St c5CtxA ⟨"u", "h"⟩ "a" rfl).1
      (by decide) (by decide),
   (handle_connect_node_send_cases c5St c5CtxB ⟨"u", "h"⟩ "a" rfl).2.1 3
      (by decide) (by decide) (Or.inr ⟨.findSuccessor 5, by decide⟩),
   (handle_connect_node_send_cases c5St c5CtxC ⟨"u", "h"⟩ "a" rfl).2.2 c5R2C
      rfl (by decide),
   (handle_connect_node_send_cases c5St c5CtxD ⟨"u", "h"⟩ "a" rfl).2.2 c5R2D
      rfl (by decide)⟩

end RingsNode
